import Mathlib

/-!
Verification of the front-end state logic of `src/main.ts` (pdf-to-image).

The TypeScript file keeps a `Map<string, FileState>` from a file's stem to its
conversion state, updates it from two Tauri events (`progress`, `file_status`),
and submits conversion requests from the convert-button handler.  This file
embeds that logic shallowly: the `Map` becomes an association list with
JS-`Map` semantics (unique keys, in-place mutation of the found entry), the
event listeners become pure state transformers, and the DOM control values
become fields of an `AppState` record.
-/

namespace PdfToImage

/-- The status union type used by `FileStatusPayload` and `FileState`
(`"queued" | "processing" | "success" | "error"`, main.ts lines 13 and 20). -/
inductive FileStatus where
  | queued
  | processing
  | success
  | error
deriving DecidableEq

/-- `interface ProgressPayload` (main.ts lines 5-9). -/
structure ProgressPayload where
  filename : String
  current : Int
  total : Int
deriving DecidableEq

/-- `interface FileStatusPayload` (main.ts lines 11-16); the optional fields
become `Option`. -/
structure FileStatusPayload where
  filename : String
  status : FileStatus
  error : Option String
  output_path : Option String
deriving DecidableEq

/-- `interface FileState` (main.ts lines 18-24). -/
structure FileState where
  filename : String
  status : FileStatus
  progressCurrent : Int
  progressTotal : Int
  error : Option String
deriving DecidableEq

/-- The `fileStates` map (main.ts line 30), as an association list with unique
keys in insertion order, mirroring a JS `Map<string, FileState>`. -/
abbrev FileStates := List (String × FileState)

/-- `fileStates.get(k)`: first (unique) entry with the given key. -/
def findState (k : String) : FileStates → Option FileState
  | [] => none
  | (k2, s) :: rest => if k = k2 then some s else findState k rest

/-- `fileStates.set(k, v)`: replace the entry with key `k`, or append. -/
def setState (k : String) (v : FileState) : FileStates → FileStates
  | [] => [(k, v)]
  | (k2, s) :: rest => if k = k2 then (k2, v) :: rest else (k2, s) :: setState k v rest

/-- Mutation through the reference returned by `fileStates.get(k)`: apply `f`
to the entry with key `k`, leaving everything else in place. -/
def mutateAt (k : String) (f : FileState → FileState) : FileStates → FileStates
  | [] => []
  | (k2, s) :: rest =>
      if k = k2 then (k2, f s) :: rest else (k2, s) :: mutateAt k f rest

/-- Body of the `progress` listener on a found state (main.ts lines 151-153):
`state.progressCurrent = current; state.progressTotal = total;
if (state.status !== "processing") state.status = "processing";`. -/
def progressUpdate (e : ProgressPayload) (s : FileState) : FileState :=
  let s1 := { s with progressCurrent := e.current, progressTotal := e.total }
  if s1.status = FileStatus.processing then s1
  else { s1 with status := FileStatus.processing }

/-- The `progress` listener (main.ts lines 147-156): look the filename up in
`fileStates`; when absent do nothing, when present mutate that state. -/
def handleProgress (e : ProgressPayload) (m : FileStates) : FileStates :=
  match findState e.filename m with
  | none => m
  | some _ => mutateAt e.filename (progressUpdate e) m

/-- Body of the `file_status` listener on a found state (main.ts lines
162-163): `state.status = status; if (error) state.error = error;` — note the
JS truthiness check, under which `undefined` and `""` both leave the previous
message in place, and that the message is never cleared. -/
def statusUpdate (e : FileStatusPayload) (s : FileState) : FileState :=
  let s1 := { s with status := e.status }
  match e.error with
  | none => s1
  | some msg => if msg = "" then s1 else { s1 with error := some msg }

/-- The `file_status` listener (main.ts lines 158-169). -/
def handleFileStatus (e : FileStatusPayload) (m : FileStates) : FileStates :=
  match findState e.filename m with
  | none => m
  | some _ => mutateAt e.filename (statusUpdate e) m

/-- The two event kinds the front end subscribes to (main.ts lines 147 and
158); no other listener touches `fileStates`. -/
inductive AppEvent where
  | progress (p : ProgressPayload)
  | fileStatus (p : FileStatusPayload)

/-- The Tauri event name each subscription uses. -/
def eventName : AppEvent → String
  | .progress _ => "progress"
  | .fileStatus _ => "file_status"

/-- The correlation key carried by an event's payload. -/
def eventFilename : AppEvent → String
  | .progress p => p.filename
  | .fileStatus p => p.filename

/-- Dispatch one incoming event to its listener. -/
def handleEvent : AppEvent → FileStates → FileStates
  | .progress p, m => handleProgress p m
  | .fileStatus p, m => handleFileStatus p m

/-- Deliver a sequence of events in order. -/
def handleEvents (es : List AppEvent) (m : FileStates) : FileStates :=
  es.foldl (fun acc e => handleEvent e acc) m

/-- The regex class `[\\/]` of `getBasename` (main.ts line 69). -/
def isSep (c : Char) : Bool := c == '\\' || c == '/'

/-- The last element of `path.split(/[\\/]/)`: the suffix after the last
separator (the whole string when it has no separator, empty when the path
ends in one). -/
def lastSegment (cs : List Char) : List Char :=
  (cs.reverse.takeWhile (fun c => !isSep c)).reverse

/-- `getBasename` (main.ts line 69):
`path.split(/[\\/]/).pop() || "unknown"`. -/
def getBasename (path : String) : String :=
  let b := lastSegment path.data
  if b.isEmpty then "unknown" else String.mk b

/-- Whether the regex `/\.pdf$/i` matches: the last four characters are
`.pdf` up to case. -/
def hasPdfExt (cs : List Char) : Bool :=
  match cs.reverse with
  | f :: d :: p :: dot :: _ =>
      (f.toLower == 'f') && (d.toLower == 'd') && (p.toLower == 'p') && (dot == '.')
  | _ => false

/-- `filename.replace(/\.pdf$/i, "")` (main.ts line 82). -/
def stripPdfExt (s : String) : String :=
  if hasPdfExt s.data then String.mk (s.data.reverse.drop 4).reverse else s

/-- The key under which `renderTable` creates and the listeners look up a
file's state (main.ts lines 81-94, 149, 160). -/
def stemKey (path : String) : String := stripPdfExt (getBasename path)

/-- Spec-side definition, following the spec's words: the stem is the
"filename without extension", i.e. the base name cut at its last dot
(unchanged when it has no dot). Used only to compare with `stemKey`. -/
def specStem (s : String) : String :=
  let r := s.data.reverse
  if '.' ∈ r then String.mk ((r.dropWhile (fun c => c != '.')).drop 1).reverse
  else s

/-- The initial state `renderTable` installs for a new stem
(main.ts lines 85-92). -/
def initState (stem : String) : FileState :=
  { filename := stem, status := FileStatus.queued, progressCurrent := 0,
    progressTotal := 0, error := none }

/-- The per-path body of `renderTable` restricted to its effect on
`fileStates` (main.ts lines 81-94): create a Queued entry under the stem
when none exists. -/
def ensureFile (m : FileStates) (path : String) : FileStates :=
  match findState (stemKey path) m with
  | some _ => m
  | none => setState (stemKey path) (initState (stemKey path)) m

/-- `renderTable`'s whole effect on `fileStates`: one `ensureFile` per
selected path, in order (main.ts line 80). -/
def renderTableStates (files : List String) (m : FileStates) : FileStates :=
  files.foldl ensureFile m

theorem findState_mutateAt_self (k : String) (f : FileState → FileState)
    (m : FileStates) :
    findState k (mutateAt k f m) = (findState k m).map f := by
  induction m with
  | nil => rfl
  | cons p rest ih =>
      obtain ⟨k2, s⟩ := p
      by_cases h : k = k2
      · simp [mutateAt, findState, h]
      · simp [mutateAt, findState, h, ih]

theorem findState_mutateAt_ne (k k2 : String) (f : FileState → FileState)
    (m : FileStates) (hk : k2 ≠ k) :
    findState k2 (mutateAt k f m) = findState k2 m := by
  induction m with
  | nil => rfl
  | cons p rest ih =>
      obtain ⟨k3, s⟩ := p
      by_cases h : k = k3
      · subst h
        simp [mutateAt, findState, hk]
      · by_cases h2 : k2 = k3
        · simp [mutateAt, findState, h, h2]
        · simp [mutateAt, findState, h, h2, ih]

theorem findState_setState_self (k : String) (v : FileState) (m : FileStates) :
    findState k (setState k v m) = some v := by
  induction m with
  | nil => simp [setState, findState]
  | cons p rest ih =>
      obtain ⟨k2, s⟩ := p
      by_cases h : k = k2
      · simp [setState, findState, h]
      · simp [setState, findState, h, ih]

theorem mutateAt_of_not_found (k : String) (f : FileState → FileState)
    (m : FileStates) (h : findState k m = none) :
    mutateAt k f m = m := by
  induction m with
  | nil => rfl
  | cons p rest ih =>
      obtain ⟨k2, s⟩ := p
      by_cases hk : k = k2
      · simp [findState, hk] at h
      · simp [findState, hk] at h
        simp [mutateAt, hk, ih h]

theorem ne_dot_of_toLower {c l : Char} (h : c.toLower = l)
    (hl : Char.toLower '.' ≠ l) : (c != '.') = true := by
  rw [bne_iff_ne]
  intro e
  exact hl (e ▸ h)

theorem stripPdf_eq_specStem (s : String) (h : hasPdfExt s.data = true) :
    stripPdfExt s = specStem s := by
  have hcond := h
  rcases hr : s.data.reverse with _ | ⟨f, _ | ⟨d, _ | ⟨p, _ | ⟨dot, rest⟩⟩⟩⟩ <;>
    simp [hasPdfExt, hr] at h
  obtain ⟨⟨⟨hf, hd⟩, hp⟩, hdot⟩ := h
  subst hdot
  have hf2 : (f != '.') = true := ne_dot_of_toLower hf (by decide)
  have hd2 : (d != '.') = true := ne_dot_of_toLower hd (by decide)
  have hp2 : (p != '.') = true := ne_dot_of_toLower hp (by decide)
  simp [stripPdfExt, specStem, hcond, hr, List.dropWhile_cons, hf2, hd2, hp2]

/-- Claim C1: for every selected input path (which carries a `.pdf` extension,
the only kind the file dialog admits), the key under which `renderTable`
creates the file's state and under which the listeners match incoming events
is the file's base name with its extension removed, and an event updates at
most the entry stored under its own filename key. -/
theorem stem_correlation_key (path : String)
    (h : hasPdfExt (getBasename path).data = true) :
    stemKey path = specStem (getBasename path) ∧
    (∀ m : FileStates, findState (stemKey path) (ensureFile m path) ≠ none) ∧
    (∀ (e : ProgressPayload) (m : FileStates) (k : String), k ≠ e.filename →
        findState k (handleProgress e m) = findState k m) ∧
    (∀ (e : FileStatusPayload) (m : FileStates) (k : String), k ≠ e.filename →
        findState k (handleFileStatus e m) = findState k m) := by
  refine ⟨stripPdf_eq_specStem (getBasename path) h, ?_, ?_, ?_⟩
  · intro m
    unfold ensureFile
    rcases hf : findState (stemKey path) m with _ | s
    · simp [findState_setState_self]
    · simp [hf]
  · intro e m k hk
    unfold handleProgress
    rcases hf : findState e.filename m with _ | s
    · rfl
    · exact findState_mutateAt_ne e.filename k (progressUpdate e) m hk
  · intro e m k hk
    unfold handleFileStatus
    rcases hf : findState e.filename m with _ | s
    · rfl
    · exact findState_mutateAt_ne e.filename k (statusUpdate e) m hk

/-- Witness for C1 at a concrete Windows-style path. -/
theorem stem_correlation_key_witness :
    stemKey "C:\\Docs\\Report.PDF" = specStem (getBasename "C:\\Docs\\Report.PDF") ∧
    (∀ m : FileStates,
        findState (stemKey "C:\\Docs\\Report.PDF")
          (ensureFile m "C:\\Docs\\Report.PDF") ≠ none) ∧
    (∀ (e : ProgressPayload) (m : FileStates) (k : String), k ≠ e.filename →
        findState k (handleProgress e m) = findState k m) ∧
    (∀ (e : FileStatusPayload) (m : FileStates) (k : String), k ≠ e.filename →
        findState k (handleFileStatus e m) = findState k m) :=
  stem_correlation_key "C:\\Docs\\Report.PDF" (by decide)

theorem progressUpdate_eq (e : ProgressPayload) (s : FileState) :
    progressUpdate e s =
      { s with progressCurrent := e.current, progressTotal := e.total,
               status := FileStatus.processing } := by
  obtain ⟨fn, st, pc, pt, er⟩ := s
  simp only [progressUpdate]
  by_cases h : st = FileStatus.processing <;> simp [h]

theorem handleProgress_found (e : ProgressPayload) (m : FileStates)
    (s : FileState) (h : findState e.filename m = some s) :
    findState e.filename (handleProgress e m) = some (progressUpdate e s) := by
  unfold handleProgress
  rw [h, findState_mutateAt_self, h]
  rfl

theorem handleFileStatus_found (e : FileStatusPayload) (m : FileStates)
    (s : FileState) (h : findState e.filename m = some s) :
    findState e.filename (handleFileStatus e m) = some (statusUpdate e s) := by
  unfold handleFileStatus
  rw [h, findState_mutateAt_self, h]
  rfl

theorem findState_handleEvent_ne (e : AppEvent) (m : FileStates) (k : String)
    (h : eventFilename e ≠ k) :
    findState k (handleEvent e m) = findState k m := by
  cases e with
  | progress p =>
      simp only [handleEvent]
      unfold handleProgress
      rcases hf : findState p.filename m with _ | s
      · rfl
      · exact findState_mutateAt_ne p.filename k (progressUpdate p) m (Ne.symm h)
  | fileStatus p =>
      simp only [handleEvent]
      unfold handleFileStatus
      rcases hf : findState p.filename m with _ | s
      · rfl
      · exact findState_mutateAt_ne p.filename k (statusUpdate p) m (Ne.symm h)

/-- Claim C2 counterexample: the listeners do not freeze a terminal state.
A file that already reached `success` is mutated by a later `progress` event:
its status drops back to `processing` and its progress fields are
overwritten. -/
theorem terminal_not_frozen_cex :
    findState "doc"
      (handleProgress { filename := "doc", current := 6, total := 6 }
        [("doc", { filename := "doc", status := FileStatus.success,
                   progressCurrent := 5, progressTotal := 5, error := none })]) =
      some { filename := "doc", status := FileStatus.processing,
             progressCurrent := 6, progressTotal := 6, error := none } ∧
    ({ filename := "doc", status := FileStatus.processing, progressCurrent := 6,
       progressTotal := 6, error := none } : FileState) ≠
      { filename := "doc", status := FileStatus.success, progressCurrent := 5,
        progressTotal := 5, error := none } := by
  decide

/-- Claim C2 (amended): a terminal state is left unchanged only as long as no
further Progress or Status event carrying its stem is handled — the
immutability rests on the emitter's guarantee that a terminal status is the
last event for a stem, not on the listeners, which would mutate the state. -/
theorem terminal_frame_without_events (k : String) (s : FileState)
    (m : FileStates) (es : List AppEvent)
    (_hterm : s.status = FileStatus.success ∨ s.status = FileStatus.error)
    (hfind : findState k m = some s)
    (hes : ∀ e ∈ es, eventFilename e ≠ k) :
    findState k (handleEvents es m) = some s := by
  induction es generalizing m with
  | nil => exact hfind
  | cons e rest ih =>
      simp only [handleEvents, List.foldl_cons]
      have h1 : findState k (handleEvent e m) = some s := by
        rw [findState_handleEvent_ne e m k (hes e (List.mem_cons_self e rest))]
        exact hfind
      exact ih (handleEvent e m) h1 (fun e2 he2 => hes e2 (List.mem_cons_of_mem e he2))

/-- Witness for the amended C2: a successful file's state survives a batch of
events addressed to other stems. -/
theorem terminal_frame_without_events_witness :
    findState "doc"
      (handleEvents
        [AppEvent.progress { filename := "other", current := 1, total := 2 },
         AppEvent.fileStatus { filename := "second", status := FileStatus.error,
                               error := some "boom", output_path := none }]
        [("doc", { filename := "doc", status := FileStatus.success,
                   progressCurrent := 5, progressTotal := 5, error := none })]) =
      some { filename := "doc", status := FileStatus.success,
             progressCurrent := 5, progressTotal := 5, error := none } :=
  terminal_frame_without_events "doc"
    { filename := "doc", status := FileStatus.success, progressCurrent := 5,
      progressTotal := 5, error := none }
    [("doc", { filename := "doc", status := FileStatus.success,
               progressCurrent := 5, progressTotal := 5, error := none })]
    [AppEvent.progress { filename := "other", current := 1, total := 2 },
     AppEvent.fileStatus { filename := "second", status := FileStatus.error,
                           error := some "boom", output_path := none }]
    (Or.inl rfl) (by decide) (by decide)

/-- Claim C3: after the `progress` listener handles an event for a tracked
stem, that file's status is `processing`, whatever it was before — the
consumer infers Processing from the first Progress event. -/
theorem progress_forces_processing (e : ProgressPayload) (m : FileStates)
    (s : FileState) (h : findState e.filename m = some s) :
    Option.map FileState.status (findState e.filename (handleProgress e m)) =
      some FileStatus.processing := by
  rw [handleProgress_found e m s h, progressUpdate_eq]
  rfl

/-- Witness for C3 on a queued file. -/
theorem progress_forces_processing_witness :
    Option.map FileState.status
      (findState "doc"
        (handleProgress { filename := "doc", current := 1, total := 4 }
          [("doc", { filename := "doc", status := FileStatus.queued,
                     progressCurrent := 0, progressTotal := 0, error := none })])) =
      some FileStatus.processing :=
  progress_forces_processing
    { filename := "doc", current := 1, total := 4 }
    [("doc", { filename := "doc", status := FileStatus.queued,
               progressCurrent := 0, progressTotal := 0, error := none })]
    { filename := "doc", status := FileStatus.queued,
      progressCurrent := 0, progressTotal := 0, error := none }
    (by decide)

/-- Claim C4 counterexample: the `progress` listener enforces no monotonicity;
an event whose `current` is smaller than the stored `progressCurrent` makes
the stored value decrease (5 drops to 3). -/
theorem progress_monotonicity_cex :
    findState "doc"
      (handleProgress { filename := "doc", current := 3, total := 10 }
        [("doc", { filename := "doc", status := FileStatus.processing,
                   progressCurrent := 5, progressTotal := 10, error := none })]) =
      some { filename := "doc", status := FileStatus.processing,
             progressCurrent := 3, progressTotal := 10, error := none } ∧
    (3 : Int) < 5 := by
  decide

/-- Claim C4 (amended): the `progress` listener copies the event's `current`
and `total` into the state verbatim (and forces the status to `processing`);
monotone `current`, fixed `total` and `0 ≤ current ≤ total` therefore hold in
the state only when the incoming event stream itself satisfies them. -/
theorem progress_copies_event_fields (e : ProgressPayload) (m : FileStates)
    (s : FileState) (h : findState e.filename m = some s) :
    findState e.filename (handleProgress e m) =
      some { s with progressCurrent := e.current, progressTotal := e.total,
                    status := FileStatus.processing } := by
  rw [handleProgress_found e m s h, progressUpdate_eq]

/-- Witness for the amended C4. -/
theorem progress_copies_event_fields_witness :
    findState "doc"
      (handleProgress { filename := "doc", current := 2, total := 9 }
        [("doc", { filename := "doc", status := FileStatus.queued,
                   progressCurrent := 7, progressTotal := 7, error := none })]) =
      some { filename := "doc", status := FileStatus.processing,
             progressCurrent := 2, progressTotal := 9, error := none } :=
  progress_copies_event_fields
    { filename := "doc", current := 2, total := 9 }
    [("doc", { filename := "doc", status := FileStatus.queued,
               progressCurrent := 7, progressTotal := 7, error := none })]
    { filename := "doc", status := FileStatus.queued,
      progressCurrent := 7, progressTotal := 7, error := none }
    (by decide)

/-- Claim C5 counterexample: the `file_status` listener never clears the
error message, so a `success` event after an earlier error leaves a state
whose status is not `error` yet still carries an error message — refuting
"error present iff status = error". -/
theorem error_iff_status_cex :
    findState "doc"
      (handleFileStatus
        { filename := "doc", status := FileStatus.success, error := none,
          output_path := none }
        [("doc", { filename := "doc", status := FileStatus.error,
                   progressCurrent := 1, progressTotal := 2,
                   error := some "boom" })]) =
      some { filename := "doc", status := FileStatus.success,
             progressCurrent := 1, progressTotal := 2, error := some "boom" } ∧
    (Option.isSome (some "boom") = true ∧ FileStatus.success ≠ FileStatus.error) := by
  decide

/-- Claim C5 (amended): the `file_status` listener sets the status from the
event and updates the error message only when the event carries a non-empty
one; it never clears a previous message, so a stale error can coexist with a
non-error status, and an error status delivered without a message adds
none. -/
theorem status_update_behavior (e : FileStatusPayload) (m : FileStates)
    (s : FileState) (h : findState e.filename m = some s) :
    findState e.filename (handleFileStatus e m) = some (statusUpdate e s) ∧
    (statusUpdate e s).status = e.status ∧
    (statusUpdate e s).error =
      (match e.error with
       | none => s.error
       | some msg => if msg = "" then s.error else some msg) ∧
    (s.error.isSome = true → (statusUpdate e s).error.isSome = true) := by
  refine ⟨handleFileStatus_found e m s h, ?_, ?_, ?_⟩
  · rcases he : e.error with _ | msg
    · simp [statusUpdate, he]
    · by_cases hm : msg = "" <;> simp [statusUpdate, he, hm]
  · rcases he : e.error with _ | msg
    · simp [statusUpdate, he]
    · by_cases hm : msg = "" <;> simp [statusUpdate, he, hm]
  · intro hs
    rcases he : e.error with _ | msg
    · simpa [statusUpdate, he] using hs
    · by_cases hm : msg = "" <;> simp [statusUpdate, he, hm]
      simpa using hs

/-- Witness for the amended C5: a success event after a stored error keeps
the stale message. -/
theorem status_update_behavior_witness :
    findState "doc"
      (handleFileStatus
        { filename := "doc", status := FileStatus.success, error := none,
          output_path := none }
        [("doc", { filename := "doc", status := FileStatus.error,
                   progressCurrent := 1, progressTotal := 2,
                   error := some "old" })]) =
      some (statusUpdate
        { filename := "doc", status := FileStatus.success, error := none,
          output_path := none }
        { filename := "doc", status := FileStatus.error, progressCurrent := 1,
          progressTotal := 2, error := some "old" }) ∧
    (statusUpdate
        { filename := "doc", status := FileStatus.success, error := none,
          output_path := none }
        { filename := "doc", status := FileStatus.error, progressCurrent := 1,
          progressTotal := 2, error := some "old" }).status = FileStatus.success ∧
    (statusUpdate
        { filename := "doc", status := FileStatus.success, error := none,
          output_path := none }
        { filename := "doc", status := FileStatus.error, progressCurrent := 1,
          progressTotal := 2, error := some "old" }).error =
      (match (none : Option String) with
       | none => some "old"
       | some msg => if msg = "" then some "old" else some msg) ∧
    ((some "old" : Option String).isSome = true →
      (statusUpdate
        { filename := "doc", status := FileStatus.success, error := none,
          output_path := none }
        { filename := "doc", status := FileStatus.error, progressCurrent := 1,
          progressTotal := 2, error := some "old" }).error.isSome = true) :=
  status_update_behavior
    { filename := "doc", status := FileStatus.success, error := none,
      output_path := none }
    [("doc", { filename := "doc", status := FileStatus.error,
               progressCurrent := 1, progressTotal := 2, error := some "old" })]
    { filename := "doc", status := FileStatus.error, progressCurrent := 1,
      progressTotal := 2, error := some "old" }
    (by decide)

/-- Claim C6: the subscriber consumes exactly the two event kinds `progress`
and `file_status` with the fixed payload schemas; the status values are the
closed four-element union, the payload records are determined by their listed
fields, and `output_path` plays no part in any state update. -/
theorem event_schema_fixed :
    (∀ e : AppEvent, eventName e = "progress" ∨ eventName e = "file_status") ∧
    (∀ st : FileStatus, st = FileStatus.queued ∨ st = FileStatus.processing ∨
        st = FileStatus.success ∨ st = FileStatus.error) ∧
    (∀ p q : ProgressPayload, p.filename = q.filename → p.current = q.current →
        p.total = q.total → p = q) ∧
    (∀ p q : FileStatusPayload, p.filename = q.filename → p.status = q.status →
        p.error = q.error → p.output_path = q.output_path → p = q) ∧
    (∀ (p : FileStatusPayload) (o : Option String) (m : FileStates),
        handleFileStatus { p with output_path := o } m = handleFileStatus p m) := by
  refine ⟨?_, ?_, ?_, ?_, ?_⟩
  · intro e
    cases e
    · exact Or.inl rfl
    · exact Or.inr rfl
  · intro st
    cases st
    · exact Or.inl rfl
    · exact Or.inr (Or.inl rfl)
    · exact Or.inr (Or.inr (Or.inl rfl))
    · exact Or.inr (Or.inr (Or.inr rfl))
  · intro p q h1 h2 h3
    cases p
    cases q
    simp_all
  · intro p q h1 h2 h3 h4
    cases p
    cases q
    simp_all
  · intro p o m
    rfl

/-- Witness for C6, instantiating the `output_path`-irrelevance conjunct. -/
theorem event_schema_fixed_witness :
    handleFileStatus
      { filename := "doc", status := FileStatus.success, error := none,
        output_path := some "out/doc.png" }
      [("doc", { filename := "doc", status := FileStatus.processing,
                 progressCurrent := 4, progressTotal := 4, error := none })] =
    handleFileStatus
      { filename := "doc", status := FileStatus.success, error := none,
        output_path := none }
      [("doc", { filename := "doc", status := FileStatus.processing,
                 progressCurrent := 4, progressTotal := 4, error := none })] :=
  event_schema_fixed.2.2.2.2
    { filename := "doc", status := FileStatus.success, error := none,
      output_path := none }
    (some "out/doc.png")
    [("doc", { filename := "doc", status := FileStatus.processing,
               progressCurrent := 4, progressTotal := 4, error := none })]

/-- The application state the convert handler reads: the two module-level
variables (main.ts lines 26-27), the current values of the form controls, and
the `fileStates` map. -/
structure AppState where
  selectedFiles : List String
  outputDirectory : Option String
  formatValue : String
  scaleValue : String
  pageRangeValue : String
  mergeChecked : Bool
  qualityValue : String
  fileStates : FileStates
deriving DecidableEq

/-- A finite JS number written as an exact decimal: the value
`mantissa / 10 ^ shift`.  Exactly represents every string the scale selector
offers ("1", "1.5", "2", "4"). -/
structure JsNumber where
  mantissa : Int
  shift : Nat
deriving DecidableEq

/-- The argument object of `invoke("convert_pdf", ...)` (main.ts lines
218-226); exactly these seven fields are submitted. -/
structure ConvertRequest where
  inputPaths : List String
  outputDir : String
  format : String
  scale : Option JsNumber
  pageRange : String
  merge : Bool
  quality : Option Int
deriving DecidableEq

/-- Value of a digit run, most significant first. -/
def digitsVal (ds : List Char) : Nat :=
  ds.foldl (fun a c => a * 10 + (c.toNat - 48)) 0

/-- JS `parseInt(s)` on the decimal strings a range input produces: skip
spaces, optional sign, longest digit run; `none` models `NaN`. -/
def jsParseInt (s : String) : Option Int :=
  let cs := s.data.dropWhile (fun c => c == ' ')
  let signed : Int × List Char :=
    match cs with
    | '-' :: r => (-1, r)
    | '+' :: r => (1, r)
    | _ => (1, cs)
  let ds := signed.2.takeWhile Char.isDigit
  if ds.isEmpty then none else some (signed.1 * (digitsVal ds : Int))

/-- JS `parseFloat(s)` on the decimal strings a select option produces: skip
spaces, optional sign, integer part, optional fraction; `none` models
`NaN`.  The result `a.b` is returned as the exact decimal
`(a * 10 ^ |b| + b) / 10 ^ |b|`. -/
def jsParseFloat (s : String) : Option JsNumber :=
  let cs := s.data.dropWhile (fun c => c == ' ')
  let signed : Int × List Char :=
    match cs with
    | '-' :: r => (-1, r)
    | '+' :: r => (1, r)
    | _ => (1, cs)
  let ip := signed.2.takeWhile Char.isDigit
  let rest := signed.2.dropWhile Char.isDigit
  match rest with
  | '.' :: r2 =>
      let fp := r2.takeWhile Char.isDigit
      if ip.isEmpty && fp.isEmpty then none
      else some ⟨signed.1 * ((digitsVal ip : Int) * (10 : Int) ^ fp.length +
        (digitsVal fp : Int)), fp.length⟩
  | _ =>
      if ip.isEmpty then none
      else some ⟨signed.1 * (digitsVal ip : Int), 0⟩

/-- The reset loop of the convert handler (main.ts line 214):
`fileStates.forEach(s => { s.status = "queued"; s.error = undefined; })`. -/
def resetStates (m : FileStates) : FileStates :=
  m.map (fun p => (p.1, { p.2 with status := FileStatus.queued, error := none }))

/-- The convert-button click handler restricted to its guard, its state reset
and the request it submits (main.ts lines 205-226):
`if (selectedFiles.length === 0 || !outputDirectory) return;` followed by the
reset loop and `invoke("convert_pdf", {...})`.  The first component is the
submitted request (`none` when the guard returns early), the second the
application state afterwards. -/
def convertClick (st : AppState) : Option ConvertRequest × AppState :=
  match st.outputDirectory with
  | none => (none, st)
  | some d =>
      if st.selectedFiles.isEmpty || d == "" then (none, st)
      else
        (some { inputPaths := st.selectedFiles,
                outputDir := d,
                format := st.formatValue,
                scale := jsParseFloat st.scaleValue,
                pageRange := st.pageRangeValue,
                merge := st.mergeChecked,
                quality := jsParseInt st.qualityValue },
         { st with fileStates := resetStates st.fileStates })

/-- The `change` handler of the format selector (main.ts lines 51-57): the
`display` style the quality section has after the handler ran for the given
selected value. -/
def qualitySectionDisplayAfterChange (fmt : String) : String :=
  if fmt = "jpg" then "block" else "none"

theorem findState_resetStates (k : String) (m : FileStates) :
    findState k (resetStates m) =
      (findState k m).map
        (fun s => { s with status := FileStatus.queued, error := none }) := by
  induction m with
  | nil => rfl
  | cons p rest ih =>
      obtain ⟨k2, s⟩ := p
      by_cases h : k = k2
      · simp [resetStates, findState, h]
      · simp only [resetStates, List.map_cons]
        simp [findState, h]
        simpa [resetStates] using ih

/-- Inversion of the convert-button guard: when a request was submitted, the
guard passed, the request's fields are exactly the values the handler read,
and the state afterwards is the old state with `fileStates` reset. -/
theorem convertClick_inv (st : AppState) (r : ConvertRequest)
    (h : (convertClick st).1 = some r) :
    st.selectedFiles ≠ [] ∧
    st.outputDirectory = some r.outputDir ∧
    r.inputPaths = st.selectedFiles ∧
    r.format = st.formatValue ∧
    r.scale = jsParseFloat st.scaleValue ∧
    r.pageRange = st.pageRangeValue ∧
    r.merge = st.mergeChecked ∧
    r.quality = jsParseInt st.qualityValue ∧
    (convertClick st).2 = { st with fileStates := resetStates st.fileStates } := by
  unfold convertClick at h ⊢
  rcases hd : st.outputDirectory with _ | d
  · simp only [hd] at h
    exact absurd h (by simp)
  · simp only [hd] at h ⊢
    by_cases hg : st.selectedFiles.isEmpty || d == ""
    · rw [if_pos hg] at h
      exact absurd h (by simp)
    · rw [if_neg hg] at h ⊢
      have h2 : _ = r := Option.some.inj h
      subst h2
      refine ⟨?_, rfl, rfl, rfl, rfl, rfl, rfl, rfl, rfl⟩
      intro he
      exact hg (by simp [he])

/-- Claim C7: the conversion command is submitted only when files are selected
and an output directory was chosen, and the request carries exactly the
selected paths in order, the chosen directory, the chosen format, the parsed
scale, the raw page-range string, the merge flag and the parsed quality. -/
theorem convert_request_fields (st : AppState) (r : ConvertRequest)
    (h : (convertClick st).1 = some r) :
    st.selectedFiles ≠ [] ∧
    st.outputDirectory = some r.outputDir ∧
    r.inputPaths = st.selectedFiles ∧
    r.format = st.formatValue ∧
    r.scale = jsParseFloat st.scaleValue ∧
    r.pageRange = st.pageRangeValue ∧
    r.merge = st.mergeChecked ∧
    r.quality = jsParseInt st.qualityValue := by
  obtain ⟨h1, h2, h3, h4, h5, h6, h7, h8, _⟩ := convertClick_inv st r h
  exact ⟨h1, h2, h3, h4, h5, h6, h7, h8⟩

/-- Witness for C7 at a concrete application state. -/
theorem convert_request_fields_witness :
    (⟨["a.pdf", "b.pdf"], some "out", "jpg", "2", "1-3", false, "85", []⟩ :
        AppState).selectedFiles ≠ [] ∧
    (⟨["a.pdf", "b.pdf"], some "out", "jpg", "2", "1-3", false, "85", []⟩ :
        AppState).outputDirectory =
      some (⟨["a.pdf", "b.pdf"], "out", "jpg", some ⟨2, 0⟩, "1-3", false, some 85⟩ :
        ConvertRequest).outputDir ∧
    (⟨["a.pdf", "b.pdf"], "out", "jpg", some ⟨2, 0⟩, "1-3", false, some 85⟩ :
        ConvertRequest).inputPaths =
      (⟨["a.pdf", "b.pdf"], some "out", "jpg", "2", "1-3", false, "85", []⟩ :
        AppState).selectedFiles ∧
    (⟨["a.pdf", "b.pdf"], "out", "jpg", some ⟨2, 0⟩, "1-3", false, some 85⟩ :
        ConvertRequest).format =
      (⟨["a.pdf", "b.pdf"], some "out", "jpg", "2", "1-3", false, "85", []⟩ :
        AppState).formatValue ∧
    (⟨["a.pdf", "b.pdf"], "out", "jpg", some ⟨2, 0⟩, "1-3", false, some 85⟩ :
        ConvertRequest).scale =
      jsParseFloat (⟨["a.pdf", "b.pdf"], some "out", "jpg", "2", "1-3", false,
        "85", []⟩ : AppState).scaleValue ∧
    (⟨["a.pdf", "b.pdf"], "out", "jpg", some ⟨2, 0⟩, "1-3", false, some 85⟩ :
        ConvertRequest).pageRange =
      (⟨["a.pdf", "b.pdf"], some "out", "jpg", "2", "1-3", false, "85", []⟩ :
        AppState).pageRangeValue ∧
    (⟨["a.pdf", "b.pdf"], "out", "jpg", some ⟨2, 0⟩, "1-3", false, some 85⟩ :
        ConvertRequest).merge =
      (⟨["a.pdf", "b.pdf"], some "out", "jpg", "2", "1-3", false, "85", []⟩ :
        AppState).mergeChecked ∧
    (⟨["a.pdf", "b.pdf"], "out", "jpg", some ⟨2, 0⟩, "1-3", false, some 85⟩ :
        ConvertRequest).quality =
      jsParseInt (⟨["a.pdf", "b.pdf"], some "out", "jpg", "2", "1-3", false,
        "85", []⟩ : AppState).qualityValue :=
  convert_request_fields
    ⟨["a.pdf", "b.pdf"], some "out", "jpg", "2", "1-3", false, "85", []⟩
    ⟨["a.pdf", "b.pdf"], "out", "jpg", some ⟨2, 0⟩, "1-3", false, some 85⟩
    (by decide)

/-- Claim C8: after every change of the format selector the quality section is
shown exactly when the chosen format is `jpg`, while every submitted request
carries the parsed quality value regardless of the chosen format. -/
theorem format_change_quality :
    (∀ fmt : String,
        qualitySectionDisplayAfterChange fmt = "block" ↔ fmt = "jpg") ∧
    (∀ (st : AppState) (r : ConvertRequest), (convertClick st).1 = some r →
        r.quality = jsParseInt st.qualityValue) := by
  constructor
  · intro fmt
    unfold qualitySectionDisplayAfterChange
    by_cases h : fmt = "jpg" <;> simp [h]
  · intro st r h
    exact (convertClick_inv st r h).2.2.2.2.2.2.2.1

/-- Witness for C8: the quality value is submitted even when the format is
`png`, and the section is hidden for `png`. -/
theorem format_change_quality_witness :
    (qualitySectionDisplayAfterChange "png" = "block" ↔ "png" = "jpg") ∧
    (⟨["a.pdf"], "out", "png", some ⟨1, 0⟩, "", true, some 40⟩ :
        ConvertRequest).quality =
      jsParseInt (⟨["a.pdf"], some "out", "png", "1", "", true, "40", []⟩ :
        AppState).qualityValue :=
  ⟨format_change_quality.1 "png",
   format_change_quality.2
     ⟨["a.pdf"], some "out", "png", "1", "", true, "40", []⟩
     ⟨["a.pdf"], "out", "png", some ⟨1, 0⟩, "", true, some 40⟩
     (by decide)⟩

/-- Claim C9: an incoming Progress or Status event whose filename matches no
tracked stem leaves the `fileStates` map exactly as it was — no entry is
created, nothing is mutated, no failure is raised. -/
theorem unmatched_event_noop (e : ProgressPayload) (e2 : FileStatusPayload)
    (m : FileStates) (h1 : findState e.filename m = none)
    (h2 : findState e2.filename m = none) :
    handleProgress e m = m ∧ handleFileStatus e2 m = m := by
  constructor
  · unfold handleProgress
    rw [h1]
  · unfold handleFileStatus
    rw [h2]

/-- Witness for C9: events for an untracked stem are dropped. -/
theorem unmatched_event_noop_witness :
    handleProgress { filename := "ghost", current := 1, total := 2 }
      [("doc", { filename := "doc", status := FileStatus.queued,
                 progressCurrent := 0, progressTotal := 0, error := none })] =
      [("doc", { filename := "doc", status := FileStatus.queued,
                 progressCurrent := 0, progressTotal := 0, error := none })] ∧
    handleFileStatus
      { filename := "phantom", status := FileStatus.error, error := some "x",
        output_path := none }
      [("doc", { filename := "doc", status := FileStatus.queued,
                 progressCurrent := 0, progressTotal := 0, error := none })] =
      [("doc", { filename := "doc", status := FileStatus.queued,
                 progressCurrent := 0, progressTotal := 0, error := none })] :=
  unmatched_event_noop
    { filename := "ghost", current := 1, total := 2 }
    { filename := "phantom", status := FileStatus.error, error := some "x",
      output_path := none }
    [("doc", { filename := "doc", status := FileStatus.queued,
               progressCurrent := 0, progressTotal := 0, error := none })]
    (by decide) (by decide)

/-- Claim C10: when a conversion actually starts, every tracked file's status
is reset to `queued` and its error cleared while `progressCurrent` and
`progressTotal` keep their previous values, no entry appears or disappears,
and the selected files, output directory and form control values are
untouched. -/
theorem convert_resets_states (st : AppState) (r : ConvertRequest)
    (h : (convertClick st).1 = some r) :
    (convertClick st).2.selectedFiles = st.selectedFiles ∧
    (convertClick st).2.outputDirectory = st.outputDirectory ∧
    (convertClick st).2.formatValue = st.formatValue ∧
    (convertClick st).2.scaleValue = st.scaleValue ∧
    (convertClick st).2.pageRangeValue = st.pageRangeValue ∧
    (convertClick st).2.mergeChecked = st.mergeChecked ∧
    (convertClick st).2.qualityValue = st.qualityValue ∧
    (∀ (k : String) (s : FileState), findState k st.fileStates = some s →
        findState k (convertClick st).2.fileStates =
          some { s with status := FileStatus.queued, error := none }) ∧
    (∀ k : String, findState k st.fileStates = none →
        findState k (convertClick st).2.fileStates = none) := by
  have hst : (convertClick st).2 = { st with fileStates := resetStates st.fileStates } :=
    (convertClick_inv st r h).2.2.2.2.2.2.2.2
  rw [hst]
  refine ⟨rfl, rfl, rfl, rfl, rfl, rfl, rfl, ?_, ?_⟩
  · intro k s hk
    show findState k (resetStates st.fileStates) = _
    rw [findState_resetStates, hk]
    rfl
  · intro k hk
    show findState k (resetStates st.fileStates) = none
    rw [findState_resetStates, hk]
    rfl

/-- Witness for C10 at a concrete state holding one errored file. -/
theorem convert_resets_states_witness :
    (convertClick ⟨["a.pdf"], some "out", "png", "1", "", false, "80",
        [("a", { filename := "a", status := FileStatus.error,
                 progressCurrent := 3, progressTotal := 7,
                 error := some "boom" })]⟩).2.selectedFiles = ["a.pdf"] ∧
    (convertClick ⟨["a.pdf"], some "out", "png", "1", "", false, "80",
        [("a", { filename := "a", status := FileStatus.error,
                 progressCurrent := 3, progressTotal := 7,
                 error := some "boom" })]⟩).2.outputDirectory = some "out" ∧
    (convertClick ⟨["a.pdf"], some "out", "png", "1", "", false, "80",
        [("a", { filename := "a", status := FileStatus.error,
                 progressCurrent := 3, progressTotal := 7,
                 error := some "boom" })]⟩).2.formatValue = "png" ∧
    (convertClick ⟨["a.pdf"], some "out", "png", "1", "", false, "80",
        [("a", { filename := "a", status := FileStatus.error,
                 progressCurrent := 3, progressTotal := 7,
                 error := some "boom" })]⟩).2.scaleValue = "1" ∧
    (convertClick ⟨["a.pdf"], some "out", "png", "1", "", false, "80",
        [("a", { filename := "a", status := FileStatus.error,
                 progressCurrent := 3, progressTotal := 7,
                 error := some "boom" })]⟩).2.pageRangeValue = "" ∧
    (convertClick ⟨["a.pdf"], some "out", "png", "1", "", false, "80",
        [("a", { filename := "a", status := FileStatus.error,
                 progressCurrent := 3, progressTotal := 7,
                 error := some "boom" })]⟩).2.mergeChecked = false ∧
    (convertClick ⟨["a.pdf"], some "out", "png", "1", "", false, "80",
        [("a", { filename := "a", status := FileStatus.error,
                 progressCurrent := 3, progressTotal := 7,
                 error := some "boom" })]⟩).2.qualityValue = "80" ∧
    findState "a" (convertClick ⟨["a.pdf"], some "out", "png", "1", "", false,
        "80", [("a", { filename := "a", status := FileStatus.error,
                       progressCurrent := 3, progressTotal := 7,
                       error := some "boom" })]⟩).2.fileStates =
      some { filename := "a", status := FileStatus.queued, progressCurrent := 3,
             progressTotal := 7, error := none } := by
  have h := convert_resets_states
    ⟨["a.pdf"], some "out", "png", "1", "", false, "80",
      [("a", { filename := "a", status := FileStatus.error,
               progressCurrent := 3, progressTotal := 7,
               error := some "boom" })]⟩
    ⟨["a.pdf"], "out", "png", some ⟨1, 0⟩, "", false, some 80⟩
    (by decide)
  refine ⟨h.1, h.2.1, h.2.2.1, h.2.2.2.1, h.2.2.2.2.1, h.2.2.2.2.2.1,
    h.2.2.2.2.2.2.1, ?_⟩
  exact h.2.2.2.2.2.2.2.1 "a"
    { filename := "a", status := FileStatus.error, progressCurrent := 3,
      progressTotal := 7, error := some "boom" } (by decide)

end PdfToImage
